import Mathlib

/-
Shallow embedding of jcloutz/fcc-url-shortener (src/main.go), a URL-shortening
service.  The embedding models:
  - the slug alphabet constant and the random slug generator
    (GenerateSlug, main.go:184-197),
  - the uniqueness-retry loop (GenerateUniqueSlug, main.go:199-213), with the
    store existence query abstracted as an oracle and the unbounded `for` loop
    made total by an explicit fuel parameter (returning `none` exactly when the
    Go loop would still be running after `fuel` iterations),
  - the mongo collection as a list of URL records, with Count/Insert/Find.One
    modelled as pure list operations for the sequential (error-free) runs and
    as Except-valued oracles where a claim is about query failures,
  - the HTTP handlers NewURL (main.go:104-131), RedirectURL (main.go:134-150)
    and ValidateURL (main.go:153-162), with responses as a small inductive.
Go's math/rand source is modelled as a stream r : Nat -> Nat of draws; the
k-th call to Intn(n) yields r k % n, so every sequence of in-range Intn
results is realisable by some stream and every stream yields in-range results.
-/

namespace UrlShortener

/-- The alphabet constant, transcribed character for character from
src/main.go:27 (note the source's irregular run QRXWYZ and trailing 0). -/
def chars : String := "ABCDEFGHIJKLMNOPQRXWYZabcdefghijklmnopqrstuvwxyz1234567890"

/-- The characters of the alphabet constant as a list. -/
def charsList : List Char := chars.data

/-- charCount := len(chars) - 1, exactly as computed in GenerateSlug
(src/main.go:188); the source string has 58 bytes, so this is 57. -/
def charCount : Nat := charsList.length - 1

/-- GenerateSlug (src/main.go:185-197): builds a string of the given length
whose i-th character is chars[Intn(charCount)] for the i-th random draw.
The random source is the stream r; the i-th draw for this slug is r i %
charCount, matching rand.Intn which returns a value in [0, charCount). -/
def GenerateSlug (r : Nat → Nat) (length : Nat) : String :=
  String.mk ((List.range length).map (fun i => charsList.getD (r i % charCount) ' '))

/-- The slug produced by iteration t of the retry loop: iteration t consumes
draws t*length .. t*length+length-1 of the stream. -/
def slugAt (r : Nat → Nat) (length t : Nat) : String :=
  GenerateSlug (fun i => r (t * length + i)) length

/-- GenerateUniqueSlug's loop body (src/main.go:201-213).  count is the store
existence query `c.Find(bson.M\x7b"slug": slug\x7d).Count()`: `Except.ok n`
models (n, nil) and `Except.error u` models a query error.  The Go code exits
the loop exactly when err == nil && c == 0; on a nonzero count or on an error
it falls through and generates a fresh slug.  fuel bounds the number of
iterations we unroll; `none` means the Go loop is still running. -/
def GenerateUniqueSlugAux (r : Nat → Nat) (length : Nat)
    (count : String → Except Unit Nat) : Nat → Nat → Option String
  | 0, _ => none
  | fuel + 1, t =>
    match count (slugAt r length t) with
    | Except.ok 0 => some (slugAt r length t)
    | Except.ok (_ + 1) => GenerateUniqueSlugAux r length count fuel (t + 1)
    | Except.error _ => GenerateUniqueSlugAux r length count fuel (t + 1)

/-- GenerateUniqueSlug (src/main.go:201-213), starting at iteration 0. -/
def GenerateUniqueSlug (r : Nat → Nat) (length : Nat)
    (count : String → Except Unit Nat) (fuel : Nat) : Option String :=
  GenerateUniqueSlugAux r length count fuel 0

/-- The URL record persisted in mongo (src/main.go:38-42). -/
structure URL where
  slug : String
  originalURL : String
  shortURL : String
deriving DecidableEq

/-- Error messages of the service (src/main.go:31-35). -/
def ErrInvalidURL : String := "Invalid URL Format"

/-- Error message rendered by the redirect handler (src/main.go:33). -/
def ErrNotFound : String := "Unable to locate a url with that slug"

/-- Error message for a failed insert (src/main.go:34). -/
def ErrUnableToShortenUrl : String := "Unable to create shortened url"

/-- The JSON body produced by RespondError (src/main.go:165-167):
json.Marshal of JsonError\x7bError: msg\x7d. -/
def jsonError (msg : String) : String := "\x7b\"error\":\"" ++ msg ++ "\"\x7d"

/-- What a handler writes to the ResponseWriter: either a JSON body with a
status (RespondJSON, src/main.go:170-182) or an http.Redirect with a target
Location (src/main.go:147). -/
inductive Response where
  | json (status : Nat) (body : String)
  | redirect (status : Nat) (target : String)
deriving DecidableEq

/-- Errors a store lookup can produce: mgo returns ErrNotFound when no
document matches, or a connectivity/query error otherwise.  The handler code
never inspects which (src/main.go:141-145). -/
inductive StoreErr where
  | notFound
  | queryFailure
deriving DecidableEq

/-- Number of documents in the collection matching a slug: the pure model of
`c.Find(bson.M\x7b"slug": slug\x7d).Count()` (src/main.go:206) over a list of
records. -/
def countSlug (db : List URL) (s : String) : Nat :=
  (db.filter (fun m => m.slug == s)).length

/-- The existence-query oracle presented by a healthy store holding db: every
query succeeds and reports the matching-document count. -/
def storeCount (db : List URL) : String → Except Unit Nat :=
  fun s => Except.ok (countSlug db s)

/-- The lookup used by the redirect path: the model of
`Find(bson.M\x7b"slug": slug\x7d).One(&newUrl)` (src/main.go:141) over a list
of records; mgo's One returns the first match or ErrNotFound. -/
def FindBySlug (db : List URL) (s : String) : Except StoreErr URL :=
  match db.find? (fun m => m.slug == s) with
  | some m => Except.ok m
  | none => Except.error StoreErr.notFound

/-- RedirectURL (src/main.go:134-150), abstracted over the store lookup: any
lookup error is answered with status 404 and the ErrNotFound JSON body; a
found record is answered with http.Redirect(w, r, newUrl.OriginalURL, 302). -/
def RedirectURL (lookup : String → Except StoreErr URL) (slug : String) : Response :=
  match lookup slug with
  | Except.error _ => Response.json 404 (jsonError ErrNotFound)
  | Except.ok m => Response.redirect 302 m.originalURL

/-- First character of a URL scheme must be a letter (Go net/url getScheme). -/
def isSchemeFirst (c : Char) : Bool := c.isAlpha

/-- Later characters of a URL scheme may be letters, digits, +, - or .
(Go net/url getScheme). -/
def isSchemeRest (c : Char) : Bool :=
  c.isAlpha || c.isDigit || c == '+' || c == '-' || c == '.'

/-- A nonempty candidate scheme is valid when its first character is a letter
and the rest are scheme characters. -/
def validScheme : List Char → Bool
  | [] => false
  | c :: cs => isSchemeFirst c && cs.all isSchemeRest

/-- Splits the input at its first colon: some (before, after), or none when
the input has no colon. -/
def splitAtColon : List Char → Option (List Char × List Char)
  | [] => none
  | c :: rest =>
    if c == ':' then some ([], rest)
    else (splitAtColon rest).map (fun p => (c :: p.1, p.2))

/-- Modelled from Go's net/url getScheme, which ValidateURL relies on through
url.Parse (Go standard library, external to this repository): scans for a
colon preceded only by scheme characters.  none models the
"missing protocol scheme" parse error (a colon at position 0); some (scheme,
rest) yields the lowercased scheme and the remainder, with scheme = [] when
the input has no scheme (no colon, or a non-scheme character before the first
colon). -/
def getScheme (s : List Char) : Option (List Char × List Char) :=
  match splitAtColon s with
  | none => some ([], s)
  | some ([], _) => none
  | some (pre, rest) =>
    if validScheme pre then some (pre.map Char.toLower, rest) else some ([], s)

/-- The authority part keeps characters up to the first /, ? or #. -/
def takeAuthority (l : List Char) : List Char :=
  l.takeWhile (fun c => !(c == '/' || c == '?' || c == '#'))

/-- Host is the authority with any userinfo (up to the last @) removed. -/
def afterLastAt (auth : List Char) : List Char :=
  (auth.reverse.takeWhile (fun c => !(c == '@'))).reverse

/-- Modelled from Go's net/url Parse (external to this repository), reduced to
the two fields ValidateURL reads: u.Scheme and u.Host.  The Host field is
nonempty only when the part after the scheme starts with //; it then extends
to the first /, ? or #, with userinfo before an @ stripped (the port, when
present, stays inside Host, as in Go).  Go's additional host-character
validation is not modelled; none of the claims' inputs depends on it. -/
def urlParse (input : String) : Option (List Char × List Char) :=
  match getScheme input.data with
  | none => none
  | some (scheme, rest) =>
    match rest with
    | '/' :: '/' :: tail => some (scheme, afterLastAt (takeAuthority tail))
    | _ => some (scheme, [])

/-- ValidateURL (src/main.go:153-162): parse the input, then require no parse
error, a nonempty Scheme, and a Host containing ".". -/
def ValidateURL (input : String) : Bool :=
  match urlParse input with
  | none => false
  | some (scheme, host) => !scheme.isEmpty && host.contains '.'

/-- NewURL (src/main.go:104-131) on a healthy store, restricted to its effect
on the collection: validate the input, allocate a unique slug with
GenerateUniqueSlug(8, collection, "slug"), build the URL record with
ShortURL = Host + "/" + slug, and insert it.  none covers the 400 paths: an
input failing ValidateURL, and the allocation loop still running after fuel
iterations (the Go loop is unbounded).  Insert on a healthy store succeeds;
mongo appends the new document. -/
def NewURL (host : String) (r : Nat → Nat) (fuel : Nat) (db : List URL)
    (u : String) : Option (URL × List URL) :=
  if ValidateURL u then
    match GenerateUniqueSlug r 8 (storeCount db) fuel with
    | some slug => some (⟨slug, u, host ++ "/" ++ slug⟩, db ++ [⟨slug, u, host ++ "/" ++ slug⟩])
    | none => none
  else none

/-- Slug uniqueness: no two persisted records share a slug value. -/
def slugsUnique (db : List URL) : Prop := (db.map URL.slug).Nodup

instance (db : List URL) : Decidable (slugsUnique db) :=
  List.nodupDecidable (db.map URL.slug)

/-- A sequence of create requests against the same store instance, each with
its own random stream, fuel and submitted url; a request that fails leaves
the store unchanged. -/
def runCreates (host : String) : List ((Nat → Nat) × Nat × String) → List URL → List URL
  | [], db => db
  | (r, fuel, u) :: rest, db =>
    match NewURL host r fuel db u with
    | none => runCreates host rest db
    | some (_, db') => runCreates host rest db'

/-- The 62-character alphanumeric alphabet the specification names
(A-Z, a-z, 0-9); written from the spec's words, for comparison with the
source's chars constant. -/
def alphabet62 : String :=
  "ABCDEFGHIJKLMNOPQRSTUVWXYZabcdefghijklmnopqrstuvwxyz0123456789"

/-- A store oracle whose query fails exactly on the slug "AAAAAAAA" and
reports every other slug free; used to exercise the query-error path. -/
def errOnAAAA : String → Except Unit Nat :=
  fun s => if s = "AAAAAAAA" then Except.error () else Except.ok 0

section Helpers

/-- Every index the generator can draw lands inside the first charCount
characters of the alphabet constant. -/
theorem getD_mem_take : ∀ k, k < charCount → charsList.getD k ' ' ∈ charsList.take charCount := by
  decide

/-- Unpacking GenerateSlug: every character of a generated slug is one of the
first charCount characters of the alphabet constant. -/
theorem mem_generateSlug_reachable (r : Nat → Nat) (n : Nat) (c : Char)
    (h : c ∈ (GenerateSlug r n).data) : c ∈ charsList.take charCount := by
  have hd : (GenerateSlug r n).data
      = (List.range n).map (fun i => charsList.getD (r i % charCount) ' ') := rfl
  rw [hd] at h
  obtain ⟨i, _, hi⟩ := List.mem_map.mp h
  rw [← hi]
  exact getD_mem_take (r i % charCount) (Nat.mod_lt (r i) (by decide))

/-- When GenerateUniqueSlugAux returns a slug, the query on that slug
succeeded with count zero. -/
theorem genAux_returns_free (r : Nat → Nat) (L : Nat) (count : String → Except Unit Nat) :
    ∀ (fuel t : Nat) (s : String),
      GenerateUniqueSlugAux r L count fuel t = some s → count s = Except.ok 0 := by
  intro fuel
  induction fuel with
  | zero =>
    intro t s h
    exact absurd h (by simp [GenerateUniqueSlugAux])
  | succ n ih =>
    intro t s h
    unfold GenerateUniqueSlugAux at h
    cases hc : count (slugAt r L t) with
    | error e =>
      rw [hc] at h
      exact ih (t + 1) s h
    | ok k =>
      rw [hc] at h
      cases k with
      | zero =>
        have h' : some (slugAt r L t) = some s := h
        injection h' with h''
        rw [← h'']
        exact hc
      | succ m =>
        exact ih (t + 1) s h

end Helpers

/-- C8: for every positive integer length, GenerateSlug(length) returns a
string of exactly length characters. -/
theorem generateSlug_length (r : Nat → Nat) (n : Nat) (_h : 0 < n) :
    (GenerateSlug r n).length = n := by
  have hd : (GenerateSlug r n).length
      = ((List.range n).map (fun i => charsList.getD (r i % charCount) ' ')).length := rfl
  rw [hd]
  simp

/-- Witness for C8 at length 8. -/
theorem generateSlug_length_witness :
    0 < 8 ∧ (GenerateSlug (fun k => k) 8).length = 8 :=
  ⟨by decide, generateSlug_length (fun k => k) 8 (by decide)⟩

/-- C9: no generated slug ever contains the digit 0, because the random index
is drawn from Intn(len(chars) - 1), which excludes the final index, and the
final character of the chars constant is 0. -/
theorem generateSlug_never_digit_zero :
    (∀ (r : Nat → Nat) (n : Nat) (c : Char), c ∈ (GenerateSlug r n).data → c ≠ '0') ∧
    charsList.getLast? = some '0' := by
  constructor
  · intro r n c h
    have hmem := mem_generateSlug_reachable r n c h
    revert hmem
    have : ∀ x ∈ charsList.take charCount, x ≠ '0' := by decide
    exact this c
  · decide

/-- Witness for C9: the character A occurs in a concrete generated slug and is
not the digit 0. -/
theorem generateSlug_never_digit_zero_witness :
    'A' ∈ (GenerateSlug (fun _ => 0) 8).data ∧ 'A' ≠ '0' :=
  ⟨by decide, generateSlug_never_digit_zero.1 (fun _ => 0) 8 'A' (by decide)⟩

/-- C2 counterexample: the claim says each position is drawn uniformly at
random from the 62-character alphabet A-Z, a-z, 0-9.  It is not: the letter S
belongs to that alphabet, yet no drawable index of the chars constant maps to
S (the source alphabet reads QRXWYZ, omitting S, T, U, V), so a slug long
enough to use every drawable index — here GenerateSlug with the identity
stream and length charCount, whose characters are exactly the drawable ones —
never contains S. -/
theorem generateSlug_not_uniform_over_62 :
    'S' ∈ alphabet62.data ∧
    (GenerateSlug (fun k => k) charCount).data = charsList.take charCount ∧
    'S' ∉ (GenerateSlug (fun k => k) charCount).data ∧
    ((List.range charCount).filter (fun k => charsList.getD k ' ' == 'S')).length = 0 := by
  decide

/-- C2 amended: every character of every generated slug belongs to the
62-character alphanumeric alphabet, but the per-position distribution is
uniform over only the first charCount = 57 characters of the chars constant
(which lack S, T, U, V and the digit 0): each generated character lies in
that 57-character prefix, and the prefix has no duplicates, so the uniform
draw of an index in [0, 57) induces the uniform distribution on exactly those
57 characters. -/
theorem generateSlug_alphabet_amended :
    (∀ (r : Nat → Nat) (n : Nat) (c : Char), c ∈ (GenerateSlug r n).data →
      c ∈ alphabet62.data ∧ c ∈ charsList.take charCount) ∧
    (charsList.take charCount).Nodup := by
  constructor
  · intro r n c h
    have hmem := mem_generateSlug_reachable r n c h
    refine ⟨?_, hmem⟩
    revert hmem
    have : ∀ x ∈ charsList.take charCount, x ∈ alphabet62.data := by decide
    exact this c
  · decide

/-- Witness for C2 amended at a concrete slug character. -/
theorem generateSlug_alphabet_amended_witness :
    'A' ∈ alphabet62.data ∧ 'A' ∈ charsList.take charCount :=
  generateSlug_alphabet_amended.1 (fun _ => 0) 8 'A' (by decide)

/-- C3: GenerateUniqueSlug returns a slug only if the final existence query
for that slug completed without error and reported zero matching entries. -/
theorem generateUniqueSlug_returns_only_free (r : Nat → Nat) (L : Nat)
    (count : String → Except Unit Nat) (fuel : Nat) (s : String)
    (h : GenerateUniqueSlug r L count fuel = some s) : count s = Except.ok 0 :=
  genAux_returns_free r L count fuel 0 s h

/-- Witness for C3 on a store that reports every slug free. -/
theorem generateUniqueSlug_returns_only_free_witness :
    (fun _ : String => (Except.ok 0 : Except Unit Nat)) "AAAAAAAA" = Except.ok 0 :=
  generateUniqueSlug_returns_only_free (fun _ => 0) 8 (fun _ => Except.ok 0) 1
    "AAAAAAAA" (by decide)

/-- C4: the loop has no bound on attempts: when every existence query reports
the slug taken (count 1), or every query fails, the loop never exits — after
any number of unrolled iterations, from any starting iteration, it is still
running (none). -/
theorem generateUniqueSlug_unbounded :
    ∀ (fuel t : Nat) (r : Nat → Nat) (L : Nat),
      GenerateUniqueSlugAux r L (fun _ => Except.ok 1) fuel t = none ∧
      GenerateUniqueSlugAux r L (fun _ => Except.error ()) fuel t = none := by
  intro fuel
  induction fuel with
  | zero => intro t r L; exact ⟨rfl, rfl⟩
  | succ n ih => intro t r L; exact ⟨(ih (t + 1) r L).1, (ih (t + 1) r L).2⟩

/-- C5: a query error on iteration t neither aborts the loop nor returns that
iteration's slug: the call continues exactly as a fresh loop starting at
iteration t + 1, and the errored slug itself is never the value returned from
this call while its query keeps failing. -/
theorem queryError_is_retry (r : Nat → Nat) (L : Nat)
    (count : String → Except Unit Nat) (fuel t : Nat) (e : Unit)
    (h : count (slugAt r L t) = Except.error e) :
    GenerateUniqueSlugAux r L count (fuel + 1) t
      = GenerateUniqueSlugAux r L count fuel (t + 1) ∧
    GenerateUniqueSlugAux r L count (fuel + 1) t ≠ some (slugAt r L t) := by
  constructor
  · show (match count (slugAt r L t) with
      | Except.ok 0 => some (slugAt r L t)
      | Except.ok (_ + 1) => GenerateUniqueSlugAux r L count fuel (t + 1)
      | Except.error _ => GenerateUniqueSlugAux r L count fuel (t + 1))
      = GenerateUniqueSlugAux r L count fuel (t + 1)
    rw [h]
  · intro hs
    have hfree := genAux_returns_free r L count (fuel + 1) t _ hs
    rw [h] at hfree
    simp at hfree

/-- Witness for C5 on the oracle that fails exactly on the first generated
slug. -/
theorem queryError_is_retry_witness :
    GenerateUniqueSlugAux (fun _ => 0) 8 errOnAAAA 2 0
      = GenerateUniqueSlugAux (fun _ => 0) 8 errOnAAAA 1 1 ∧
    GenerateUniqueSlugAux (fun _ => 0) 8 errOnAAAA 2 0 ≠ some (slugAt (fun _ => 0) 8 0) :=
  queryError_is_retry (fun _ => 0) 8 errOnAAAA 1 0 () (by rfl)

section MoreHelpers

/-- A store with no record matching s has every record's slug beq-distinct
from s. -/
theorem countSlug_zero_beq (db : List URL) (s : String) (h : countSlug db s = 0) :
    ∀ x ∈ db, (x.slug == s) = false := by
  intro x hx
  have hfil : db.filter (fun y => y.slug == s) = [] := List.length_eq_zero.mp h
  by_contra hbx
  have hmem : x ∈ db.filter (fun y => y.slug == s) := by
    rw [List.mem_filter]
    exact ⟨hx, by simpa using hbx⟩
  rw [hfil] at hmem
  exact absurd hmem (List.not_mem_nil x)

/-- A slug with zero matches is not among the stored slug values. -/
theorem not_mem_map_of_countSlug_zero (db : List URL) (s : String)
    (h : countSlug db s = 0) : s ∉ db.map URL.slug := by
  intro hmem
  obtain ⟨x, hx, hxs⟩ := List.mem_map.mp hmem
  have := countSlug_zero_beq db s h x hx
  rw [hxs] at this
  simp at this

/-- find? over an append whose left part has no match returns the appended
record. -/
theorem find?_append_self (m : URL) :
    ∀ db : List URL, (∀ x ∈ db, (x.slug == m.slug) = false) →
      (db ++ [m]).find? (fun x => x.slug == m.slug) = some m := by
  intro db
  induction db with
  | nil =>
    intro _
    simp [List.find?]
  | cons a as ih =>
    intro hall
    rw [List.cons_append, List.find?_cons_of_neg]
    · exact ih (fun x hx => hall x (by simp [hx]))
    · simpa using hall a (by simp)

/-- Inserting a record whose slug has zero matches makes it the one the
redirect lookup finds. -/
theorem findBySlug_insert (db : List URL) (m : URL) (h : countSlug db m.slug = 0) :
    FindBySlug (db ++ [m]) m.slug = Except.ok m := by
  unfold FindBySlug
  rw [find?_append_self m db (countSlug_zero_beq db m.slug h)]

/-- A slug allocated by GenerateUniqueSlug against the healthy store holding
db has zero matches in db. -/
theorem gen_countSlug_zero (r : Nat → Nat) (db : List URL) (fuel : Nat) (slug : String)
    (hg : GenerateUniqueSlug r 8 (storeCount db) fuel = some slug) :
    countSlug db slug = 0 := by
  have hfree : storeCount db slug = Except.ok 0 :=
    genAux_returns_free r 8 (storeCount db) fuel 0 slug hg
  have h2 : Except.ok (countSlug db slug) = (Except.ok 0 : Except Unit Nat) := hfree
  injection h2

/-- A successful create preserves slug uniqueness of the store. -/
theorem newURL_preserves (host : String) (r : Nat → Nat) (fuel : Nat)
    (db : List URL) (u : String) (p : URL × List URL)
    (h : NewURL host r fuel db u = some p) (hdb : slugsUnique db) :
    slugsUnique p.2 := by
  unfold NewURL at h
  by_cases hv : ValidateURL u
  · rw [if_pos hv] at h
    cases hg : GenerateUniqueSlug r 8 (storeCount db) fuel with
    | none =>
      rw [hg] at h
      cases h
    | some slug =>
      rw [hg] at h
      injection h with h'
      subst h'
      have hcount := gen_countSlug_zero r db fuel slug hg
      unfold slugsUnique
      rw [List.map_append, List.map_singleton]
      rw [List.nodup_append]
      refine ⟨hdb, List.nodup_singleton _, ?_⟩
      rw [List.disjoint_singleton]
      exact not_mem_map_of_countSlug_zero db slug hcount
  · rw [if_neg hv] at h
    cases h

end MoreHelpers

/-- C1: against the same store instance, successive sequential
allocate-and-insert operations (GenerateUniqueSlug followed by Insert inside
NewURL) keep the persisted mappings' slugs pairwise distinct: every create
operation preserves the uniqueness invariant, whatever each request's random
stream, fuel and submitted url are. -/
theorem runCreates_preserves_uniqueness (host : String)
    (reqs : List ((Nat → Nat) × Nat × String)) (db : List URL)
    (h : slugsUnique db) : slugsUnique (runCreates host reqs db) := by
  induction reqs generalizing db with
  | nil => exact h
  | cons req rest ih =>
    obtain ⟨r, fuel, u⟩ := req
    have heq : runCreates host ((r, fuel, u) :: rest) db
        = (match NewURL host r fuel db u with
           | none => runCreates host rest db
           | some (_, db') => runCreates host rest db') := rfl
    rw [heq]
    cases hn : NewURL host r fuel db u with
    | none => exact ih db h
    | some p =>
      obtain ⟨m, db'⟩ := p
      exact ih db' (newURL_preserves host r fuel db u (m, db') hn h)

/-- Witness for C1: two concrete create requests starting from the empty
store leave the slugs pairwise distinct. -/
theorem runCreates_preserves_uniqueness_witness :
    slugsUnique ([] : List URL) ∧
    slugsUnique (runCreates "h"
      [((fun _ => 0), 1, "http://example.com/path"),
       ((fun _ => 1), 1, "http://example.com/other")] []) :=
  ⟨by decide,
   runCreates_preserves_uniqueness "h"
     [((fun _ => 0), 1, "http://example.com/path"),
      ((fun _ => 1), 1, "http://example.com/other")] [] (by decide)⟩

/-- C7: when a create request for url u succeeds, a redirect request for the
returned record's slug against the updated store answers HTTP 302 whose
target is u itself — the very string stored, byte for byte, with no
normalization applied anywhere on the path. -/
theorem roundTrip_redirect (host : String) (r : Nat → Nat) (fuel : Nat)
    (db : List URL) (u : String) (p : URL × List URL)
    (h : NewURL host r fuel db u = some p) :
    RedirectURL (FindBySlug p.2) p.1.slug = Response.redirect 302 u := by
  unfold NewURL at h
  by_cases hv : ValidateURL u
  · rw [if_pos hv] at h
    cases hg : GenerateUniqueSlug r 8 (storeCount db) fuel with
    | none =>
      rw [hg] at h
      cases h
    | some slug =>
      rw [hg] at h
      injection h with h'
      subst h'
      have hcount := gen_countSlug_zero r db fuel slug hg
      have hfind := findBySlug_insert db ⟨slug, u, host ++ "/" ++ slug⟩ hcount
      unfold RedirectURL
      rw [hfind]
  · rw [if_neg hv] at h
    cases h

/-- Witness for C7: one concrete create on the empty store, then the redirect
for its slug. -/
theorem roundTrip_redirect_witness :
    RedirectURL
      (FindBySlug [⟨"AAAAAAAA", "http://example.com/path", "h/AAAAAAAA"⟩])
      "AAAAAAAA" = Response.redirect 302 "http://example.com/path" :=
  roundTrip_redirect "h" (fun _ => 0) 1 [] "http://example.com/path"
    (⟨"AAAAAAAA", "http://example.com/path", "h/AAAAAAAA"⟩,
     [⟨"AAAAAAAA", "http://example.com/path", "h/AAAAAAAA"⟩]) (by decide)

/-- C10: on the redirect path every store-lookup error — a missing slug or a
failed query alike — yields the identical response: status 404 with the
ErrNotFound JSON body, so storage failures are indistinguishable from
not-found at the public interface; and a slug with no matching record indeed
takes that error path. -/
theorem redirect_errors_uniform_404 :
    (∀ (e : StoreErr) (lookup : String → Except StoreErr URL) (s : String),
      lookup s = Except.error e →
      RedirectURL lookup s = Response.json 404 (jsonError ErrNotFound)) ∧
    (∀ (db : List URL) (s : String), countSlug db s = 0 →
      RedirectURL (FindBySlug db) s = Response.json 404 (jsonError ErrNotFound)) := by
  constructor
  · intro e lookup s h
    unfold RedirectURL
    rw [h]
  · intro db s h
    unfold RedirectURL FindBySlug
    have hfind : db.find? (fun m => m.slug == s) = none := by
      rw [List.find?_eq_none]
      intro x hx
      simpa using countSlug_zero_beq db s h x hx
    rw [hfind]

/-- Witness for C10: a lookup that fails as a query failure produces the 404
not-found response. -/
theorem redirect_errors_uniform_404_witness :
    RedirectURL (fun _ => Except.error StoreErr.queryFailure) "abc"
      = Response.json 404 (jsonError ErrNotFound) :=
  redirect_errors_uniform_404.1 StoreErr.queryFailure
    (fun _ => Except.error StoreErr.queryFailure) "abc" rfl

/-- C6: ValidateURL input is true exactly when the input parses (no parse
error) with a nonempty scheme and a host containing at least one dot; in
particular the four concrete judgements of the spec hold, and the check is
scheme-agnostic (ftp passes). -/
theorem validateURL_spec :
    (∀ s : String, ValidateURL s = true ↔
      (∃ scheme host, urlParse s = some (scheme, host) ∧
        scheme ≠ [] ∧ host.contains '.' = true)) ∧
    ValidateURL "not a url" = false ∧
    ValidateURL "ftp://host.com" = true ∧
    ValidateURL "http://localhost" = false ∧
    ValidateURL "http://example.com/path" = true := by
  refine ⟨?_, by decide, by decide, by decide, by decide⟩
  intro s
  unfold ValidateURL
  cases hp : urlParse s with
  | none =>
    simp
  | some p =>
    obtain ⟨scheme, host⟩ := p
    simp only [Bool.and_eq_true, Bool.not_eq_true']
    constructor
    · intro ⟨h1, h2⟩
      refine ⟨scheme, host, rfl, ?_, h2⟩
      intro hnil
      rw [hnil] at h1
      cases h1
    · intro ⟨sc, ho, hsome, hnil, hdot⟩
      injection hsome with hsome'
      have he1 : scheme = sc := congrArg Prod.fst hsome'
      have he2 : host = ho := congrArg Prod.snd hsome'
      constructor
      · rw [← he1] at hnil
        cases hsc : scheme.isEmpty
        · rfl
        · exact absurd (List.isEmpty_iff.mp hsc) hnil
      · rw [← he2] at hdot
        exact hdot

/-- Witness for C6: the scheme-agnostic positive example evaluated through
the theorem. -/
theorem validateURL_spec_witness :
    ValidateURL "ftp://host.com" = true :=
  validateURL_spec.2.2.1

end UrlShortener
